import Mathlib

/-!
Shallow embedding of `src/arch_install.py` (an interactive Arch Linux
installation script) for checking its specification.

External effects (shell commands, file writes) are modelled as explicit
`Cmd` values; functions of the script become Lean functions returning the
list of commands they would run or the strings/lines they would write.
-/

namespace ArchInstall

/-- Partition role of a planned partition (EFI system partition, swap, root). -/
inductive Role
  | EFI
  | SWAP
  | ROOT
  deriving DecidableEq, Repr

/-- An external command issued through `run_command` (or a file write). -/
inductive Cmd
  | mkfsFat32 (part : String)
  | mkswap (part : String)
  | swapon (part : String)
  | mkfsExt4 (part : String)
  | mount (src target : String)
  | mkdirBoot
  | chroot (script : String)
  | blkidUUID (device : String)
  deriving DecidableEq, Repr

/-- Device path `/dev/<disk><idx>`, as built by the f-strings in
`auto_partition_disk` (`f"/dev/{disk}1"` etc.). -/
def devPath (disk : String) (idx : Nat) : String :=
  "/dev/" ++ disk ++ toString idx

/-- Roles of the partitions created by `auto_partition_disk`
(src/arch_install.py lines 88-116): an EFI partition iff `uefi`, then a
swap partition iff `swap`, then the root partition. -/
def planRoles (uefi swap : Bool) : List Role :=
  (if uefi then [Role.EFI] else []) ++
  (if swap then [Role.SWAP] else []) ++
  [Role.ROOT]

/-- Return value of `auto_partition_disk` (src/arch_install.py lines
121-126): the literal if/elif/else over `uefi and swap`, `uefi or swap`. -/
def auto_partition_disk_paths (disk : String) (uefi swap : Bool) : List String :=
  if uefi && swap then [devPath disk 1, devPath disk 2, devPath disk 3]
  else if uefi || swap then [devPath disk 1, devPath disk 2]
  else [devPath disk 1]

/-- Commands issued by one iteration of the loop in `format_partitions`
(src/arch_install.py lines 150-157) for element `part` at index `i` of a
list of length `total`. -/
def formatOne (uefi : Bool) (total i : Nat) (part : String) : List Cmd :=
  if uefi && i == 0 then
    [Cmd.mkfsFat32 part]
  else if (total == 3 && i == 1) || (!uefi && total == 2 && i == 0) then
    [Cmd.mkswap part, Cmd.swapon part]
  else
    [Cmd.mkfsExt4 part]

/-- `format_partitions(partitions, uefi)` (src/arch_install.py lines
148-158): the full command sequence it runs. -/
def format_partitions (partitions : List String) (uefi : Bool) : List Cmd :=
  ((partitions.enum).map (fun p => formatOne uefi partitions.length p.1 p.2)).flatten

/-- Whitespace tokenizer: splits a character list into maximal runs of
non-whitespace characters (Python `str.strip().split()` with no
arguments). `acc` holds the current token's characters in reverse. -/
def wsTokens : List Char → List Char → List String
  | [], [] => []
  | [], acc => [String.mk acc.reverse]
  | c :: cs, acc =>
      if c.isWhitespace then
        if acc = [] then wsTokens cs [] else String.mk acc.reverse :: wsTokens cs []
      else wsTokens cs (c :: acc)

/-- `manual_partitioning` (src/arch_install.py lines 81-85) returns
`input(...).strip().split()`: the operator's free text, trimmed and split
on whitespace with empty fields dropped, with no validation of the count,
order or contents of the entered partitions. -/
def manual_partitioning (entered : String) : List String :=
  wsTokens entered.data []

/-- `mount_partitions(partitions, uefi)` (src/arch_install.py lines
161-169). `partitions[-1]` on an empty list raises `IndexError`, modelled
as `none`; otherwise root is mounted at `/mnt` first and, under UEFI,
`/mnt/boot` is created and the first partition mounted there. -/
def mount_partitions : List String → Bool → Option (List Cmd)
  | [], _ => none
  | p :: ps, uefi =>
      some (Cmd.mount ((p :: ps).getLast (List.cons_ne_nil p ps)) "/mnt" ::
        if uefi then [Cmd.mkdirBoot, Cmd.mount p "/mnt/boot"] else [])

/-- Geometry length passed to `parted.Geometry` for the EFI partition
(src/arch_install.py line 97): `device.getLength() * efi_size //
device.sectorSize` with `efi_size = 512 * 1024 * 1024`. -/
def efiGeometryLength (deviceLength sectorSize : Nat) : Nat :=
  deviceLength * (512 * 1024 * 1024) / sectorSize

/-- Geometry length passed to `parted.Geometry` for the swap partition
(src/arch_install.py line 108): `device.getLength() * swap_size //
device.sectorSize` with `swap_size = 2 * 1024 * 1024 * 1024`. -/
def swapGeometryLength (deviceLength sectorSize : Nat) : Nat :=
  deviceLength * (2 * 1024 * 1024 * 1024) / sectorSize

/-- `chroot_cmd.format(s)` (src/arch_install.py line 230):
`arch-chroot /mnt /bin/bash -c '<s>'`. -/
def chroot_cmd (s : String) : String :=
  "arch-chroot /mnt /bin/bash -c \x27" ++ s ++ "\x27"

/-- The effective bootloader choice string (src/arch_install.py lines
220-228): BIOS forces `"1"`; under UEFI the prompt result is taken, with
empty input defaulting to `"1"` (`input(...).strip() or "1"`). -/
def effectiveChoice (uefi : Bool) (raw : String) : String :=
  if uefi then (if raw = "" then "1" else raw) else "1"

/-- Commands of the GRUB branch of `install_bootloader`
(src/arch_install.py lines 231-239). -/
def grubCmds (disk : String) (uefi : Bool) : List Cmd :=
  [Cmd.chroot "pacman -S --noconfirm grub"] ++
  (if uefi then
    [Cmd.chroot "pacman -S --noconfirm efibootmgr",
     Cmd.chroot "grub-install --target=x86_64-efi --efi-directory=/boot --bootloader-id=GRUB"]
   else
    [Cmd.chroot ("grub-install --target=i386-pc /dev/" ++ disk)]) ++
  [Cmd.chroot "grub-mkconfig -o /boot/grub/grub.cfg"]

/-- Commands of the systemd-boot branch of `install_bootloader`
(src/arch_install.py lines 240-253); the loader files written are
modelled separately by `sdboot_arch_conf`.  Note the UUID query targets
the literal second partition `/dev/<disk>2`. -/
def sdbootCmds (disk : String) : List Cmd :=
  [Cmd.chroot "pacman -S --noconfirm efibootmgr",
   Cmd.chroot "bootctl --path=/boot install",
   Cmd.blkidUUID (devPath disk 2)]

/-- Commands of the rEFInd branch of `install_bootloader`
(src/arch_install.py lines 254-257). -/
def refindCmds : List Cmd :=
  [Cmd.chroot "pacman -S --noconfirm refind",
   Cmd.chroot "refind-install"]

/-- `install_bootloader(disk, uefi)` (src/arch_install.py lines 219-262).
The operator's successive prompt answers are the stream `choices` (one
entry per activation, indexed by recursion depth); the final `else`
branch calls `install_bootloader` again, which re-prompts under UEFI.
Python has no fuel — the extra `fuel` argument bounds the recursion depth
so the function is total, with `none` meaning the recursion did not
finish within `fuel` activations. -/
def install_bootloader (disk : String) (uefi : Bool) (choices : Nat → String) :
    Nat → Nat → Option (List Cmd)
  | 0, _ => none
  | fuel + 1, depth =>
      let choice := effectiveChoice uefi (choices depth)
      if choice = "1" then some (grubCmds disk uefi)
      else if choice = "2" ∧ uefi = true then some (sdbootCmds disk)
      else if choice = "3" ∧ uefi = true then some refindCmds
      else install_bootloader disk uefi choices fuel (depth + 1)

/-- Lines of `/mnt/boot/loader/entries/arch.conf` written by the
systemd-boot branch (src/arch_install.py lines 249-253), where `uuidOf`
models the `blkid -s UUID -o value` query: the UUID written is that of
`/dev/<disk>2`, the literal second partition. -/
def sdboot_arch_conf (uuidOf : String → String) (disk : String) : List String :=
  ["title Arch Linux",
   "linux /vmlinuz-linux",
   "initrd /initramfs-linux.img",
   "options root=UUID=" ++ uuidOf (devPath disk 2) ++ " rw"]

/-- The root partition's device path in the automatic plan: the last
entry of the returned path list (`partitions[-1]`, the convention used by
`mount_partitions`). -/
def rootDevice (disk : String) (uefi swap : Bool) : String :=
  (auto_partition_disk_paths disk uefi swap).getLastD ""

/-- `list_disks` (src/arch_install.py lines 76-78): the body prints,
binds a local `disks = []` and falls off the end without a `return`, so
the function returns Python `None`, modelled as `none`. -/
def list_disks : Option (List String) := none

/-- Outcome of the disk-selection step of `main`
(src/arch_install.py lines 314-319). -/
inductive SelectOutcome
  | typeError
  | invalidDisk
  | selected (disk : String)
  deriving DecidableEq, Repr

/-- The disk-selection step of `main` (src/arch_install.py lines
314-319): `disks = list_disks()`, then membership of `/dev/<typed>` in
`[f"/dev/{d}" for d in disks]`.  Iterating over `None` raises
`TypeError`; otherwise a failed membership test prints "Invalid disk
selected." and exits. -/
def select_disk (disksResult : Option (List String)) (typed : String) : SelectOutcome :=
  match disksResult with
  | none => SelectOutcome.typeError
  | some ds =>
      if ("/dev/" ++ typed) ∈ ds.map (fun d => "/dev/" ++ d) then
        SelectOutcome.selected typed
      else SelectOutcome.invalidDisk

/-- Result of a whole run: the process exit code and the disk-mutating
commands (partition/format/mount) executed before exit. -/
structure RunResult where
  exitCode : Nat
  diskCmds : List Cmd
  deriving DecidableEq, Repr

/-- `main` from the disk-selection step onward (src/arch_install.py
lines 314-324 and the top-level handler at lines 346-354): a `TypeError`
propagates to the `except Exception` handler which prints and calls
`sys.exit(1)`; the invalid-disk branch calls `sys.exit(1)` directly; in
both cases no partitioning/formatting/mounting command has run.  `rest`
abstracts the remainder of `main` after a successful selection. -/
def mainFromDiskSelection (typed : String) (rest : String → RunResult) : RunResult :=
  match select_disk list_disks typed with
  | SelectOutcome.typeError => ⟨1, []⟩
  | SelectOutcome.invalidDisk => ⟨1, []⟩
  | SelectOutcome.selected d => rest d

/-- The command strings run by `configure_system`
(src/arch_install.py lines 265-294), in order, before it calls
`install_bootloader`.  The root and user `chpasswd` commands embed the
password in the command string itself. -/
def configureCmds (hostname username password : String) : List String :=
  [chroot_cmd ("echo " ++ hostname ++ " > /etc/hostname"),
   chroot_cmd "echo \x27127.0.0.1 localhost\x27 >> /etc/hosts",
   chroot_cmd "echo \x27::1       localhost\x27 >> /etc/hosts",
   chroot_cmd ("echo \x27127.0.1.1 " ++ hostname ++ ".localdomain " ++ hostname ++ "\x27 >> /etc/hosts"),
   chroot_cmd "ln -sf /usr/share/zoneinfo/UTC /etc/localtime",
   chroot_cmd "hwclock --systohc",
   chroot_cmd "echo \x27en_US.UTF-8 UTF-8\x27 >> /etc/locale.gen",
   chroot_cmd "locale-gen",
   chroot_cmd "echo \x27LANG=en_US.UTF-8\x27 > /etc/locale.conf",
   chroot_cmd ("echo \x27root:" ++ password ++ "\x27 | chpasswd"),
   chroot_cmd ("useradd -m -G wheel " ++ username),
   chroot_cmd ("echo \x27" ++ username ++ ":" ++ password ++ "\x27 | chpasswd"),
   chroot_cmd "sed -i \x27s/# %wheel ALL=(ALL:ALL) ALL/%wheel ALL=(ALL:ALL) ALL/\x27 /etc/sudoers",
   chroot_cmd "pacman -S --noconfirm networkmanager",
   chroot_cmd "systemctl enable NetworkManager"]

/-- What `run_command` prints for one command (src/arch_install.py lines
16-23): nothing on success; on non-zero exit (with `check=True`) the
diagnostic includes the full command string and the captured stderr. -/
def runCommandPrints (command : String) (exitOk : Bool) (stderrText : String) : List String :=
  if exitOk then []
  else ["Error executing command: " ++ command, "Output: " ++ stderrText]

/-- Lines printed by `configure_system` itself (src/arch_install.py
lines 265-294) up to and including the first failing command, if any:
`failAt = some k` means the `k`-th command of `configureCmds` exits
non-zero (the exception then propagates, so no later line of
`configure_system` is printed); `failAt = none` means every command
succeeds.  The constant prints of the subsequent `install_bootloader`
stage and the closing status line, none of which depend on the password,
are outside this model. -/
def configure_system_prints (hostname username password : String)
    (failAt : Option Nat) (stderrText : String) : List String :=
  "Configuring system..." ::
    match failAt with
    | none => []
    | some k =>
        match (configureCmds hostname username password).get? k with
        | none => []
        | some c => runCommandPrints c false stderrText

/-- `s` contains `t` as a substring. -/
def strContains (s t : String) : Prop :=
  ∃ a b : String, s = a ++ t ++ b

/-- C1: for every firmware mode and swap flag, the automatic plan
contains exactly one ROOT partition placed last, an EFI partition present
iff UEFI placed first, and a SWAP partition present iff requested placed
immediately before ROOT; the returned device-path list has exactly one
path per planned partition, named `/dev/<disk><index>`, in the same
positional order as the plan. -/
theorem c1_auto_plan_shape (disk : String) (uefi swap : Bool) :
    (planRoles uefi swap).count Role.ROOT = 1 ∧
    (planRoles uefi swap).getLast? = some Role.ROOT ∧
    (Role.EFI ∈ planRoles uefi swap ↔ uefi = true) ∧
    (uefi = true → (planRoles uefi swap).head? = some Role.EFI) ∧
    (Role.SWAP ∈ planRoles uefi swap ↔ swap = true) ∧
    (swap = true →
      (planRoles uefi swap).get? ((planRoles uefi swap).length - 2) = some Role.SWAP) ∧
    auto_partition_disk_paths disk uefi swap =
      (List.range (planRoles uefi swap).length).map (fun i => devPath disk (i + 1)) := by
  cases uefi <;> cases swap <;>
    exact ⟨by decide, by decide, by decide, by decide, by decide, by decide, rfl⟩

/-- Witness for C1 at disk `sda`, UEFI, swap requested. -/
theorem c1_auto_plan_shape_witness :
    (planRoles true true).count Role.ROOT = 1 ∧
    (planRoles true true).getLast? = some Role.ROOT ∧
    (Role.EFI ∈ planRoles true true ↔ true = true) ∧
    (true = true → (planRoles true true).head? = some Role.EFI) ∧
    (Role.SWAP ∈ planRoles true true ↔ true = true) ∧
    (true = true →
      (planRoles true true).get? ((planRoles true true).length - 2) = some Role.SWAP) ∧
    auto_partition_disk_paths "sda" true true =
      (List.range (planRoles true true).length).map (fun i => devPath "sda" (i + 1)) :=
  c1_auto_plan_shape "sda" true true

/-- C2: for each of the four (firmware, swap) combinations, formatting
the automatic plan's returned path list issues FAT32 only at the EFI
position (index 0, UEFI only), swap format-and-activate only at the SWAP
position, and EXT4 at every remaining position. -/
theorem c2_format_of_auto_plan (disk : String) :
    format_partitions (auto_partition_disk_paths disk true true) true =
      [Cmd.mkfsFat32 (devPath disk 1), Cmd.mkswap (devPath disk 2),
       Cmd.swapon (devPath disk 2), Cmd.mkfsExt4 (devPath disk 3)] ∧
    format_partitions (auto_partition_disk_paths disk true false) true =
      [Cmd.mkfsFat32 (devPath disk 1), Cmd.mkfsExt4 (devPath disk 2)] ∧
    format_partitions (auto_partition_disk_paths disk false true) false =
      [Cmd.mkswap (devPath disk 1), Cmd.swapon (devPath disk 1),
       Cmd.mkfsExt4 (devPath disk 2)] ∧
    format_partitions (auto_partition_disk_paths disk false false) false =
      [Cmd.mkfsExt4 (devPath disk 1)] :=
  ⟨rfl, rfl, rfl, rfl⟩

/-- C3 (code evaluated at the failing input): under UEFI, when every
prompt answer is the invalid choice "4", the fallback recursion of
`install_bootloader` re-prompts and never completes for any recursion
bound — it does not execute the default after one retry.  A single retry
does succeed when the second answer is valid, and BIOS mode always takes
the GRUB branch immediately. -/
theorem c3_bootloader_retry_unbounded :
    (∀ fuel depth : Nat,
        install_bootloader "sda" true (fun _ => "4") fuel depth = none) ∧
    install_bootloader "sda" true (fun d => if d = 0 then "4" else "1") 2 0 =
      some (grubCmds "sda" true) ∧
    (∀ raw : String, ∀ fuel depth : Nat,
        install_bootloader "sda" false (fun _ => raw) (fuel + 1) depth =
          some (grubCmds "sda" false)) := by
  refine ⟨?_, rfl, fun raw fuel depth => rfl⟩
  intro fuel
  induction fuel with
  | zero => intro depth; rfl
  | succ n ih => intro depth; exact ih (depth + 1)

/-- C4 (code evaluated at a failing input): the geometry length computed
for the EFI and swap partitions is `deviceLength * sizeBytes / sectorSize`,
which scales with the total disk length instead of equalling the fixed
`sizeBytes / sectorSize`. -/
theorem c4_geometry_length_scales_with_disk :
    efiGeometryLength 1000000 512 = 1048576000000 ∧
    (512 * 1024 * 1024) / 512 = 1048576 ∧
    efiGeometryLength 1000000 512 ≠ (512 * 1024 * 1024) / 512 ∧
    efiGeometryLength 2000000 512 = 2 * efiGeometryLength 1000000 512 ∧
    swapGeometryLength 1000000 512 = 4194304000000 ∧
    (2 * 1024 * 1024 * 1024) / 512 = 4194304 ∧
    swapGeometryLength 1000000 512 ≠ (2 * 1024 * 1024 * 1024) / 512 := by
  norm_num [efiGeometryLength, swapGeometryLength]

/-- C5 (code evaluated at the failing input): the systemd-boot branch
always writes the UUID queried from the literal second partition
`/dev/<disk>2` into the loader entry's options line, but in a UEFI plan
with swap the root partition is `/dev/<disk>3`, a different device; only
in the no-swap UEFI plan does the queried partition coincide with root. -/
theorem c5_sdboot_uuid_from_second_partition :
    (∀ (uuidOf : String → String) (disk : String),
        (sdboot_arch_conf uuidOf disk).get? 3 =
          some ("options root=UUID=" ++ uuidOf (devPath disk 2) ++ " rw")) ∧
    rootDevice "sda" true true = devPath "sda" 3 ∧
    rootDevice "sda" true false = devPath "sda" 2 ∧
    devPath "sda" 2 ≠ devPath "sda" 3 :=
  ⟨fun _ _ => rfl, rfl, rfl, by decide⟩

/-- C6: for every non-empty path list and firmware mode, `mount_partitions`
mounts the last path at `/mnt` before any other mount; under UEFI it then
creates the boot directory and mounts the first path there, and under
BIOS no path other than the last is mounted. -/
theorem c6_mount_root_first (paths : List String) (uefi : Bool) (h : paths ≠ []) :
    ∃ cmds, mount_partitions paths uefi = some cmds ∧
      cmds.head? = some (Cmd.mount (paths.getLast h) "/mnt") ∧
      (uefi = true →
        cmds = [Cmd.mount (paths.getLast h) "/mnt", Cmd.mkdirBoot,
                Cmd.mount (paths.headD "") "/mnt/boot"]) ∧
      (uefi = false → cmds = [Cmd.mount (paths.getLast h) "/mnt"]) := by
  cases paths with
  | nil => exact absurd rfl h
  | cons p ps =>
      cases uefi with
      | true => exact ⟨_, rfl, rfl, fun _ => rfl, fun hf => Bool.noConfusion hf⟩
      | false => exact ⟨_, rfl, rfl, fun hf => Bool.noConfusion hf, fun _ => rfl⟩

/-- Witness for C6 on the two-partition UEFI layout. -/
theorem c6_mount_root_first_witness :
    ∃ cmds, mount_partitions ["/dev/sda1", "/dev/sda2"] true = some cmds ∧
      cmds.head? =
        some (Cmd.mount ((["/dev/sda1", "/dev/sda2"] : List String).getLast (by decide)) "/mnt") ∧
      (true = true →
        cmds = [Cmd.mount ((["/dev/sda1", "/dev/sda2"] : List String).getLast (by decide)) "/mnt",
                Cmd.mkdirBoot,
                Cmd.mount ((["/dev/sda1", "/dev/sda2"] : List String).headD "") "/mnt/boot"]) ∧
      (true = false →
        cmds = [Cmd.mount ((["/dev/sda1", "/dev/sda2"] : List String).getLast (by decide)) "/mnt"]) :=
  c6_mount_root_first ["/dev/sda1", "/dev/sda2"] true (by decide)

/-- C7: for every operator-typed disk id that is not among the detected
disks, the run exits with code 1 and no partitioning command runs before
termination. -/
theorem c7_unknown_disk_exits_without_partitioning (typed : String)
    (rest : String → RunResult)
    (_h : ¬ ∃ ds, list_disks = some ds ∧ typed ∈ ds) :
    (mainFromDiskSelection typed rest).exitCode = 1 ∧
    (mainFromDiskSelection typed rest).diskCmds = [] :=
  ⟨rfl, rfl⟩

/-- Witness for C7 at the typed id `sdz`. -/
theorem c7_unknown_disk_exits_without_partitioning_witness :
    (mainFromDiskSelection "sdz" (fun d => ⟨0, [Cmd.mkfsExt4 d]⟩)).exitCode = 1 ∧
    (mainFromDiskSelection "sdz" (fun d => ⟨0, [Cmd.mkfsExt4 d]⟩)).diskCmds = [] :=
  c7_unknown_disk_exits_without_partitioning "sdz" (fun d => ⟨0, [Cmd.mkfsExt4 d]⟩)
    (by rintro ⟨ds, hds, hmem⟩; cases hds)

/-- C8 counterexample: in the run where the root `chpasswd` command exits
non-zero, the printed diagnostic contains the user-supplied password
`hunter2` — refuting the claim that the password is never written to the
printed output. -/
theorem c8_counterexample_password_printed_on_chpasswd_failure :
    ∃ line ∈ configure_system_prints "archlinux" "bob" "hunter2" (some 9) "",
      strContains line "hunter2" :=
  ⟨"Error executing command: arch-chroot /mnt /bin/bash -c \x27echo \x27root:hunter2\x27 | chpasswd\x27",
   by decide,
   "Error executing command: arch-chroot /mnt /bin/bash -c \x27echo \x27root:",
   "\x27 | chpasswd\x27",
   by decide⟩

/-- C8 amended: the printed output of `configure_system` is independent
of the password only on the success path; when the root or the user
`chpasswd` command fails, the printed diagnostic contains the password
(the failing command string embeds it). -/
theorem c8_amended_password_printed_only_on_chpasswd_failure
    (hostname username pw1 pw2 stderrText : String) :
    configure_system_prints hostname username pw1 none stderrText =
      configure_system_prints hostname username pw2 none stderrText ∧
    (∃ line ∈ configure_system_prints hostname username pw1 (some 9) stderrText,
        strContains line pw1) ∧
    (∃ line ∈ configure_system_prints hostname username pw1 (some 11) stderrText,
        strContains line pw1) :=
  ⟨rfl,
   ⟨"Error executing command: " ++ chroot_cmd ("echo \x27root:" ++ pw1 ++ "\x27 | chpasswd"),
    List.mem_cons_of_mem _ (List.mem_cons_self _ _),
    "Error executing command: " ++ "arch-chroot /mnt /bin/bash -c \x27" ++ "echo \x27root:",
    "\x27 | chpasswd" ++ "\x27",
    by simp only [chroot_cmd, String.append_assoc]⟩,
   ⟨"Error executing command: " ++
      chroot_cmd ("echo \x27" ++ username ++ ":" ++ pw1 ++ "\x27 | chpasswd"),
    List.mem_cons_of_mem _ (List.mem_cons_self _ _),
    "Error executing command: " ++ "arch-chroot /mnt /bin/bash -c \x27" ++ "echo \x27" ++
      username ++ ":",
    "\x27 | chpasswd" ++ "\x27",
    by simp only [chroot_cmd, String.append_assoc]⟩⟩

/-- C9: `list_disks` returns `None`, so for every typed disk id the
membership check raises (`TypeError`), the run exits with code 1 before
any partitioning command, and the "Invalid disk selected." branch is
unreachable. -/
theorem c9_disk_detection_returns_none :
    list_disks = none ∧
    (∀ typed : String, select_disk list_disks typed = SelectOutcome.typeError) ∧
    (∀ typed : String, select_disk list_disks typed ≠ SelectOutcome.invalidDisk) ∧
    (∀ (typed : String) (rest : String → RunResult),
        mainFromDiskSelection typed rest = ⟨1, []⟩) :=
  ⟨rfl, fun _ => rfl, fun _ h => SelectOutcome.noConfusion h, fun _ _ => rfl⟩

/-- C10: in BIOS mode, formatting any two-element path list — such as the
unvalidated whitespace-split manual entry — always swap-formats and
swap-activates the first path and EXT4-formats the second, regardless of
the partitions' intended roles. -/
theorem c10_bios_two_paths_swap_then_ext4 (p1 p2 : String) :
    format_partitions [p1, p2] false =
      [Cmd.mkswap p1, Cmd.swapon p1, Cmd.mkfsExt4 p2] ∧
    manual_partitioning "/dev/sda1 /dev/sda2" = ["/dev/sda1", "/dev/sda2"] :=
  ⟨rfl, by decide⟩

end ArchInstall
